import Mathlib

/-!
Verification of the rule-repair agent in
`apps/web/utils/ai/assistant/fix-rules.ts`.

The development shallowly embeds the data model (rules, groups, group items,
category filters), the rule serializer `ruleToXML` with its helpers
`hasStaticConditions`, `hasCategoryConditions` and `getGroupItemType`, the
execute bodies of the mutating tools (`edit_rule`, `add_to_group`,
`remove_from_group`), the per-session tool registry, and the step-bounded
agent loop. Store writes are modelled as an explicit list of `StoreCall`
values returned next to each tool's result payload. JavaScript truthiness
of optional strings (null/undefined and the empty string are falsy) is made
explicit through `jsTruthy`.
-/

namespace FixRules

/-- Truthiness of a JS `string | undefined` value: `undefined`/`null` and the
empty string are falsy, every other string is truthy. -/
def jsTruthy : Option String → Bool
  | none => false
  | some s => decide (s ≠ "")

/-- Prisma enum `GroupItemType` (values FROM, SUBJECT). -/
inductive GroupItemType
  | FROM
  | SUBJECT
deriving DecidableEq

/-- String form of a `GroupItemType`, as interpolated into templates. -/
def GroupItemType.toStr : GroupItemType → String
  | .FROM => "FROM"
  | .SUBJECT => "SUBJECT"

/-- Prisma enum `LogicalOperator` governing the top-level conditional
operator of a rule (values AND, OR). -/
inductive LogicalOperator
  | AND
  | OR
deriving DecidableEq

/-- String form of a `LogicalOperator`, as interpolated into templates. -/
def LogicalOperator.toStr : LogicalOperator → String
  | .AND => "AND"
  | .OR => "OR"

/-- A group item: a FROM/SUBJECT pattern belonging to a group. -/
structure GroupItem where
  id : String
  type : GroupItemType
  value : String
deriving DecidableEq

/-- A group: a named collection of group items. The item list is optional
because the relation may be left unloaded (`rule.group.items` is checked for
nullishness in `ruleToXML` and in `remove_from_group`). -/
structure Group where
  id : String
  name : String
  items : Option (List GroupItem)
deriving DecidableEq

/-- A category referenced by a rule's category filters. -/
structure Category where
  id : String
  name : String
deriving DecidableEq

/-- An action attached to a rule. Its internals are irrelevant to the
repair agent, which only carries actions through unchanged; it is kept
opaque behind an identifier. -/
structure Action where
  id : String
deriving DecidableEq

/-- The condition payload accepted by edit_rule/create_rule
(`createRuleSchema.shape.condition`). The repair agent never inspects it,
only passes it to the store, so it is kept opaque. -/
structure Condition where
  raw : String
deriving DecidableEq

/-- The rule shape used by fix-rules.ts (`RuleWithRelations`): name, optional
AI instructions, optional static conditions from/to/subject/body, the
top-level conditional operator, actions, an optional group and optional
category filters. The TS field `from` is spelled `from_` because `from` is a
Lean keyword. -/
structure Rule where
  id : String
  name : String
  instructions : Option String
  from_ : Option String
  to_ : Option String
  subject : Option String
  body : Option String
  conditionalOperator : LogicalOperator
  actions : List Action
  group : Option Group
  categoryFilterType : Option String
  categoryFilters : Option (List Category)
deriving DecidableEq

/-- `hasStaticConditions(rule)`: `rule.from || rule.to || rule.subject ||
rule.body`, used in boolean position. -/
def hasStaticConditions (r : Rule) : Bool :=
  jsTruthy r.from_ || jsTruthy r.to_ || jsTruthy r.subject || jsTruthy r.body

/-- `hasCategoryConditions(rule)`: `rule.categoryFilters &&
rule.categoryFilters.length > 0`. -/
def hasCategoryConditions (r : Rule) : Bool :=
  match r.categoryFilters with
  | none => false
  | some l => decide (0 < l.length)

/-- Number of static condition fields of the rule that are set (truthy). -/
def staticSetCount (r : Rule) : Nat :=
  [r.from_, r.to_, r.subject, r.body].countP jsTruthy

/-- The `from` emission of the static block: the template fragment
`rule.from ? "<from>" + rule.from + "</from>" : ""`. -/
def fromXML (r : Rule) : String :=
  if jsTruthy r.from_ then "<from>" ++ r.from_.getD "" ++ "</from>" else ""

/-- The `to` emission of the static block. -/
def toXML (r : Rule) : String :=
  if jsTruthy r.to_ then "<to>" ++ r.to_.getD "" ++ "</to>" else ""

/-- The `subject` emission of the static block. -/
def subjectXML (r : Rule) : String :=
  if jsTruthy r.subject then "<subject>" ++ r.subject.getD "" ++ "</subject>" else ""

/-- The `body` emission of the static block. -/
def bodyXML (r : Rule) : String :=
  if jsTruthy r.body then "<body>" ++ r.body.getD "" ++ "</body>" else ""

/-- The static-conditions fragment of `ruleToXML`: emitted as one block when
`hasStaticConditions(rule)` holds, otherwise the empty string. Whitespace
mirrors the TS template literal. -/
def staticSection (r : Rule) : String :=
  if hasStaticConditions r then
    "<static_conditions>\n      " ++ fromXML r ++ "\n      " ++
      toXML r ++ "\n      " ++ subjectXML r ++ "\n      " ++
      bodyXML r ++ "\n    </static_conditions>"
  else ""

/-- One `<item>` fragment of the group section. -/
def groupItemXML (item : GroupItem) : String :=
  "<item>\n  <type>" ++ item.type.toStr ++ "</type>\n  <value>" ++ item.value ++
    "</value>\n</item>"

/-- Body of the `<group_items>` element: `rule.group.items ?
items.map(...).join(newline-indent) : "No group items"`. An absent
(null/undefined) item list yields the marker; a present list (even empty,
arrays being truthy in JS) yields the joined items. -/
def groupItemsBody (g : Group) : String :=
  match g.items with
  | some items => String.intercalate "\n      " (items.map groupItemXML)
  | none => "No group items"

/-- The group-condition fragment of `ruleToXML`: emitted when `rule.group`
is non-null, otherwise the empty string. -/
def groupSection (r : Rule) : String :=
  match r.group with
  | none => ""
  | some g =>
    "<group_condition>\n      <group>" ++ g.name ++ "</group>\n      <group_items>\n        " ++
      groupItemsBody g ++ "\n      </group_items>\n    </group_condition>"

/-- The category-conditions fragment of `ruleToXML`: emitted when
`hasCategoryConditions(rule)` holds. `rule.categoryFilters?.map(...)` would
interpolate as the text "undefined" were the list absent; the guard makes
that branch unreachable. -/
def categorySection (r : Rule) : String :=
  if hasCategoryConditions r then
    "<category_conditions>\n      " ++
      (if jsTruthy r.categoryFilterType then
        "<filter_type>" ++ r.categoryFilterType.getD "" ++ "</filter_type>"
      else "") ++ "\n      " ++
      (match r.categoryFilters with
        | none => "undefined"
        | some l =>
          String.intercalate "\n      " (l.map fun c => "<category>" ++ c.name ++ "</category>")) ++
      "\n    </category_conditions>"
  else ""

/-- `ruleToXML(rule)`: the full serialized rule block, mirroring the TS
template literal byte for byte (name, conditional operator, optional AI
instructions, static, group and category sections). -/
def ruleToXML (r : Rule) : String :=
  "<rule>\n  <rule_name>" ++ r.name ++ "</rule_name>\n  <conditions>\n    <conditional_operator>" ++
    r.conditionalOperator.toStr ++ "</conditional_operator>\n    " ++
    (if jsTruthy r.instructions then
      "<ai_instructions>" ++ r.instructions.getD "" ++ "</ai_instructions>"
    else "") ++ "\n    " ++
    staticSection r ++ "\n    " ++ groupSection r ++ "\n    " ++
    categorySection r ++ "\n  </conditions>\n</rule>"

/-- `getGroupItemType(type)`: maps "from"/"subject" to the persisted enum,
anything else to undefined. -/
def getGroupItemType (type : String) : Option GroupItemType :=
  if type = "from" then some GroupItemType.FROM
  else if type = "subject" then some GroupItemType.SUBJECT
  else none

/-- A write against the rule/group store, as issued by the tool execute
bodies: `safeUpdateRule`, `safeCreateRule`, `addGroupItem`,
`deleteGroupItem`. -/
inductive StoreCall
  | updateRule (ruleId : String) (name : String) (condition : Condition)
      (actions : List Action) (userId : String)
      (groupId : Option String) (categoryIds : Option (List String))
  | createRule (name : String) (condition : Condition) (actions : List Action)
      (userId : String) (groupId : Option String) (categoryIds : Option (List String))
  | addGroupItem (groupId : String) (type : GroupItemType) (value : String)
  | deleteGroupItem (id : String) (userId : String)
deriving DecidableEq

/-- A tool's result payload: success true, or an error with a reason
string. -/
inductive ToolResult
  | success
  | error (msg : String)
deriving DecidableEq

/-- Target resolution of edit_rule: `ruleName ? rules.find(r => r.name ===
ruleName) : matchedRule`. A truthy (given and non-empty) name selects the
first rule with exactly that name; a falsy name falls back to the session's
matched rule. -/
def resolveEditTarget (rules : List Rule) (matchedRule : Option Rule)
    (ruleName : Option String) : Option Rule :=
  if jsTruthy ruleName then rules.find? fun r => decide (some r.name = ruleName)
  else matchedRule

/-- The execute body of edit_rule: resolve the target; if none, return the
"Rule not found" error with no store call; otherwise call `safeUpdateRule`
with the rule's id, its existing name, the new condition, its existing
actions, the user id and null group/category linkage, and return success. -/
def edit_rule_execute (rules : List Rule) (matchedRule : Option Rule)
    (userId : String) (ruleName : Option String) (condition : Condition) :
    ToolResult × List StoreCall :=
  match resolveEditTarget rules matchedRule ruleName with
  | none => (ToolResult.error "Rule not found", [])
  | some rule =>
    (ToolResult.success,
     [StoreCall.updateRule rule.id rule.name condition rule.actions userId none none])

/-- The execute body of add_to_group: `rules.find(r => r.group?.name ===
groupName)?.group?.id` resolves the group id; a falsy id (undefined, or the
empty string under the `!groupId` check) yields the "Group not found" error;
an unrecognized item type yields its own error; otherwise `addGroupItem` is
called. -/
def add_to_group_execute (rules : List Rule) (groupName : Option String)
    (type : String) (value : String) : ToolResult × List StoreCall :=
  match ((rules.find? fun r => decide (r.group.map Group.name = groupName)).bind
      Rule.group).map Group.id with
  | none => (ToolResult.error "Group not found", [])
  | some gid =>
    if gid = "" then (ToolResult.error "Group not found", [])
    else
      match getGroupItemType type with
      | none => (ToolResult.error "Invalid group item type", [])
      | some git => (ToolResult.success, [StoreCall.addGroupItem gid git value])

/-- The item list of the session's matched rule's group, empty when any
link of the `matchedRule?.group?.items` chain is absent. -/
def sessionGroupItems (matchedRule : Option Rule) : List GroupItem :=
  (((matchedRule.bind Rule.group).bind Group.items)).getD []

/-- The execute body of remove_from_group: reject an unrecognized item type;
look up `matchedRule?.group?.items?.find(item => item.type === groupItemType
and item.value === value)`; if no item matches, return the "Group item not
found" error with no store call; otherwise call `deleteGroupItem` on the
matching item. -/
def remove_from_group_execute (matchedRule : Option Rule) (userId : String)
    (type : String) (value : String) : ToolResult × List StoreCall :=
  match getGroupItemType type with
  | none => (ToolResult.error "Invalid group item type", [])
  | some git =>
    match ((matchedRule.bind Rule.group).bind Group.items).bind
        (fun items => items.find? fun item =>
          decide (item.type = git) && decide (item.value = value)) with
    | none => (ToolResult.error "Group item not found", [])
    | some item => (ToolResult.success, [StoreCall.deleteGroupItem item.id userId])

/-- Names of the tools of the repair session. -/
inductive ToolName
  | edit_rule
  | create_rule
  | change_sender_category
  | add_to_group
  | remove_from_group
  | reply
deriving DecidableEq

/-- A registry entry: the tool's name and whether it has an execute step
(the reply tool is declared without one). -/
structure ToolSpec where
  name : ToolName
  hasExecute : Bool
deriving DecidableEq

/-- The per-session tool registry, in declaration order: edit_rule and
create_rule always; change_sender_category spread in only when the session's
category list is non-null; add_to_group always; remove_from_group spread in
only when the matched rule exists and has a group; reply always, with no
execute step. -/
def toolRegistry (categories : Option (List String)) (matchedRule : Option Rule) :
    List ToolSpec :=
  [⟨ToolName.edit_rule, true⟩, ⟨ToolName.create_rule, true⟩] ++
    (if categories.isSome then [⟨ToolName.change_sender_category, true⟩] else []) ++
    [⟨ToolName.add_to_group, true⟩] ++
    (if (matchedRule.bind Rule.group).isSome then [⟨ToolName.remove_from_group, true⟩] else []) ++
    [⟨ToolName.reply, false⟩]

/-- `maxSteps: 5`, the step budget passed to the completion loop. -/
def maxSteps : Nat := 5

/-- One decision of the external decision-maker: invoke a named tool, or
select the terminal reply tool with the message content. -/
inductive AgentAction
  | callTool (name : String)
  | reply (content : String)
deriving DecidableEq

/-- Outcome of a repair session: the accumulated tool-call log and the
terminal reply, if one was selected before the budget ran out. -/
structure SessionResult where
  toolCallLog : List String
  terminalReply : Option String
deriving DecidableEq

/-- Modelled from the spec: the step-bounded loop of `chatCompletionTools`
(utils/llms, not under src/). Each step the decision-maker picks an action
from the conversation so far; a tool call is executed and appended to the
log; selecting the terminal reply tool ends the session at once with no
execute step; when the budget is exhausted the session ends and the
accumulated log is still returned to the caller. -/
def runSession (decide : List String → AgentAction) : Nat → List String → SessionResult
  | 0, log => ⟨log.reverse, none⟩
  | n + 1, log =>
    match decide log with
    | AgentAction.reply c => ⟨log.reverse, some c⟩
    | AgentAction.callTool t => runSession decide n (t :: log)

/-- Character-list prefix test. -/
def prefixOfAux : List Char → List Char → Bool
  | [], _ => true
  | _ :: _, [] => false
  | a :: as, b :: bs => a == b && prefixOfAux as bs

/-- Character-list substring test: the pattern occurs at some position. -/
def subAux (pat : List Char) : List Char → Bool
  | [] => prefixOfAux pat []
  | c :: rest => prefixOfAux pat (c :: rest) || subAux pat rest

/-- String containment: the pattern occurs contiguously in the string. -/
def strContains (s pat : String) : Bool :=
  subAux pat.data s.data

/- ----------------------------------------------------------------- -/
/- Sample inputs used by witnesses and counterexamples.              -/
/- ----------------------------------------------------------------- -/

/-- A sample rule named "Newsletter" with one static condition and no
group. -/
def ruleA : Rule :=
  { id := "r1", name := "Newsletter", instructions := none,
    from_ := some "news@example.com", to_ := none, subject := none, body := none,
    conditionalOperator := LogicalOperator.AND,
    actions := [⟨"a1"⟩], group := none,
    categoryFilterType := none, categoryFilters := none }

/-- A sample group "Receipts" with a single FROM item. -/
def groupB : Group :=
  { id := "g1", name := "Receipts", items := some [⟨"gi1", GroupItemType.FROM, "shop@example.com"⟩] }

/-- A sample rule whose group is `groupB`. -/
def ruleB : Rule :=
  { id := "r2", name := "Receipts rule", instructions := none,
    from_ := none, to_ := none, subject := none, body := none,
    conditionalOperator := LogicalOperator.OR,
    actions := [], group := some groupB,
    categoryFilterType := none, categoryFilters := none }

/-- A group with a present but empty item list. -/
def groupEmptyItems : Group :=
  { id := "g2", name := "EmptyGroup", items := some [] }

/-- A rule whose group has zero items (present, empty item list). -/
def ruleEmptyItems : Rule :=
  { id := "r3", name := "EmptyGroupRule", instructions := none,
    from_ := none, to_ := none, subject := none, body := none,
    conditionalOperator := LogicalOperator.AND,
    actions := [], group := some groupEmptyItems,
    categoryFilterType := none, categoryFilters := none }

/-- A group whose item list is absent (relation not loaded). -/
def groupNoItemsList : Group :=
  { id := "g3", name := "Unloaded", items := none }

/-- A rule whose group's item list is absent. -/
def ruleNoItemsList : Rule :=
  { id := "r4", name := "UnloadedGroupRule", instructions := none,
    from_ := none, to_ := none, subject := none, body := none,
    conditionalOperator := LogicalOperator.AND,
    actions := [], group := some groupNoItemsList,
    categoryFilterType := none, categoryFilters := none }

/-- A rule with two static conditions set. -/
def ruleTwoStatics : Rule :=
  { id := "r5", name := "TwoStatics", instructions := none,
    from_ := some "boss@corp.com", to_ := none, subject := some "Weekly Digest", body := none,
    conditionalOperator := LogicalOperator.AND,
    actions := [], group := none,
    categoryFilterType := none, categoryFilters := none }

/-- A rule whose only present static fields are empty strings. -/
def ruleEmptyStrings : Rule :=
  { id := "r6", name := "EmptyStrings", instructions := none,
    from_ := some "", to_ := none, subject := some "", body := none,
    conditionalOperator := LogicalOperator.AND,
    actions := [], group := none,
    categoryFilterType := none, categoryFilters := none }

/-- A sample condition payload. -/
def cond0 : Condition := ⟨"cond0"⟩

end FixRules

namespace FixRules

/- ----------------------------------------------------------------- -/
/- Helper lemmas.                                                    -/
/- ----------------------------------------------------------------- -/

theorem data_append (a b : String) : (a ++ b).data = a.data ++ b.data := rfl

theorem prefixOfAux_self_append (pat l : List Char) :
    prefixOfAux pat (pat ++ l) = true := by
  induction pat with
  | nil => rfl
  | cons c cs ih => simp [prefixOfAux, ih]

theorem subAux_self_append (pat l : List Char) : subAux pat (pat ++ l) = true := by
  cases pat with
  | nil =>
    cases l with
    | nil => rfl
    | cons c rest => simp [subAux, prefixOfAux]
  | cons p ps => simp [subAux, prefixOfAux, prefixOfAux_self_append]

theorem subAux_append_left (pat l₁ l₂ : List Char) (h : subAux pat l₂ = true) :
    subAux pat (l₁ ++ l₂) = true := by
  induction l₁ with
  | nil => simpa using h
  | cons c cs ih => simp [subAux, ih]

theorem strContains_of_parts (s pre pat post : String)
    (h : s.data = pre.data ++ (pat.data ++ post.data)) : strContains s pat = true := by
  unfold strContains
  rw [h]
  exact subAux_append_left _ _ _ (subAux_self_append _ _)

theorem str_append_assoc (a b c : String) : a ++ b ++ c = a ++ (b ++ c) := by
  cases a with | mk la =>
  cases b with | mk lb =>
  cases c with | mk lc =>
  show String.mk ((la ++ lb) ++ lc) = String.mk (la ++ (lb ++ lc))
  rw [List.append_assoc]

theorem hasStatic_of_count_pos (r : Rule) (h : 0 < staticSetCount r) :
    hasStaticConditions r = true := by
  unfold staticSetCount at h
  unfold hasStaticConditions
  cases hf : jsTruthy r.from_ <;> cases ht : jsTruthy r.to_ <;>
    cases hs : jsTruthy r.subject <;> cases hb : jsTruthy r.body <;>
    simp_all [List.countP_cons]

theorem hasStatic_of_count_zero (r : Rule) (h : staticSetCount r = 0) :
    hasStaticConditions r = false := by
  unfold staticSetCount at h
  unfold hasStaticConditions
  cases hf : jsTruthy r.from_ <;> cases ht : jsTruthy r.to_ <;>
    cases hs : jsTruthy r.subject <;> cases hb : jsTruthy r.body <;>
    simp_all [List.countP_cons]

end FixRules

namespace FixRules

/- ----------------------------------------------------------------- -/
/- Claim C1 (corrected): edit_rule target resolution.                -/
/- ----------------------------------------------------------------- -/

/-- Claim C1, counterexample: with a given ruleName that is the empty string
(which matches no rule in the set, every rule having a non-empty name) the
claim demands the error payload and no store mutation, but edit_rule falls
back to the matched rule, returns success and issues an update call. -/
theorem editRule_emptyName_counterexample :
    ([ruleA].all fun r => decide (r.name ≠ "")) = true ∧
    edit_rule_execute [ruleA] (some ruleA) "u1" (some "") cond0 =
      (ToolResult.success,
       [StoreCall.updateRule "r1" "Newsletter" cond0 [⟨"a1"⟩] "u1" none none]) := by
  exact ⟨by decide, rfl⟩

/-- Claim C1 (amended): if ruleName is given and non-empty, the target is
the first rule in the session's rule set whose name equals ruleName exactly;
if ruleName is unset or empty, the target is the session's matched rule; if
neither resolves, edit_rule returns the payload with error "Rule not found"
and performs no store mutation. -/
theorem editRule_resolution_amended (rules : List Rule) (matchedRule : Option Rule)
    (uid : String) (ruleName : Option String) (cond : Condition) :
    (jsTruthy ruleName = true →
      (∀ r, rules.find? (fun r => decide (some r.name = ruleName)) = some r →
        some r.name = ruleName ∧
        edit_rule_execute rules matchedRule uid ruleName cond =
          (ToolResult.success,
           [StoreCall.updateRule r.id r.name cond r.actions uid none none])) ∧
      (rules.find? (fun r => decide (some r.name = ruleName)) = none →
        edit_rule_execute rules matchedRule uid ruleName cond =
          (ToolResult.error "Rule not found", []))) ∧
    (jsTruthy ruleName = false →
      (∀ r, matchedRule = some r →
        edit_rule_execute rules matchedRule uid ruleName cond =
          (ToolResult.success,
           [StoreCall.updateRule r.id r.name cond r.actions uid none none])) ∧
      (matchedRule = none →
        edit_rule_execute rules matchedRule uid ruleName cond =
          (ToolResult.error "Rule not found", []))) := by
  constructor
  · intro htr
    constructor
    · intro r hr
      have hp := List.find?_some hr
      refine ⟨of_decide_eq_true (by simpa using hp), ?_⟩
      simp [edit_rule_execute, resolveEditTarget, htr, hr]
    · intro hr
      simp [edit_rule_execute, resolveEditTarget, htr, hr]
  · intro htr
    constructor
    · intro r hr
      simp [edit_rule_execute, resolveEditTarget, htr, hr]
    · intro hr
      simp [edit_rule_execute, resolveEditTarget, htr, hr]

/-- Claim C1 witness: the amended theorem applied at a concrete session
where the rule named "Newsletter" is looked up by name. -/
theorem editRule_resolution_amended_witness :
    edit_rule_execute [ruleA] none "u1" (some "Newsletter") cond0 =
      (ToolResult.success,
       [StoreCall.updateRule ruleA.id ruleA.name cond0 ruleA.actions "u1" none none]) :=
  (((editRule_resolution_amended [ruleA] none "u1" (some "Newsletter") cond0).1
      (by decide)).1 ruleA (by decide)).2

/- ----------------------------------------------------------------- -/
/- Claim C4 (confirmed): edit_rule frame conditions on update.       -/
/- ----------------------------------------------------------------- -/

/-- Claim C4: every successful edit_rule invocation issues exactly one store
update that carries the resolved rule's existing name and existing actions
unchanged, replaces only the condition, and passes the group and category
linkage arguments through as null. -/
theorem editRule_update_frame (rules : List Rule) (matchedRule : Option Rule)
    (uid : String) (ruleName : Option String) (cond : Condition) (r : Rule)
    (h : resolveEditTarget rules matchedRule ruleName = some r) :
    edit_rule_execute rules matchedRule uid ruleName cond =
      (ToolResult.success,
       [StoreCall.updateRule r.id r.name cond r.actions uid none none]) := by
  simp [edit_rule_execute, h]

/-- Claim C4 witness: the frame theorem applied at a concrete session whose
matched rule resolves. -/
theorem editRule_update_frame_witness :
    edit_rule_execute [ruleA] (some ruleB) "u1" none cond0 =
      (ToolResult.success,
       [StoreCall.updateRule ruleB.id ruleB.name cond0 ruleB.actions "u1" none none]) :=
  editRule_update_frame [ruleA] (some ruleB) "u1" none cond0 ruleB (by decide)

/- ----------------------------------------------------------------- -/
/- Claim C10 (confirmed): add_to_group with groupName omitted.       -/
/- ----------------------------------------------------------------- -/

/-- Claim C10: an add_to_group invocation with groupName omitted always
returns the error "Group not found" and appends nothing, because the name
lookup with an undefined name can only select a rule that has no group. -/
theorem addToGroup_missing_name_error (rules : List Rule) (type value : String) :
    add_to_group_execute rules none type value =
      (ToolResult.error "Group not found", []) ∧
    (∀ r, rules.find? (fun r => decide (r.group.map Group.name = none)) = some r →
      r.group = none) := by
  have hsel : ∀ r, rules.find? (fun r => decide (r.group.map Group.name = none)) = some r →
      r.group = none := by
    intro r hr
    have hp := List.find?_some hr
    have hmap : r.group.map Group.name = none := of_decide_eq_true (by simpa using hp)
    exact Option.map_eq_none'.mp hmap
  refine ⟨?_, hsel⟩
  unfold add_to_group_execute
  cases hf : rules.find? (fun r => decide (r.group.map Group.name = none)) with
  | none => simp
  | some r => simp [hsel r hf]

/-- Claim C10 witness: the theorem applied at a concrete rule set, with the
name-lookup hypothesis discharged by evaluation. -/
theorem addToGroup_missing_name_error_witness :
    add_to_group_execute [ruleA, ruleB] none "from" "x@y.com" =
      (ToolResult.error "Group not found", []) ∧
    ruleA.group = none :=
  ⟨(addToGroup_missing_name_error [ruleA, ruleB] "from" "x@y.com").1,
   (addToGroup_missing_name_error [ruleA, ruleB] "from" "x@y.com").2 ruleA (by decide)⟩

/- ----------------------------------------------------------------- -/
/- Claim C5 (confirmed): remove_from_group is exact-match.           -/
/- ----------------------------------------------------------------- -/

/-- Claim C5: remove_from_group deletes a group item only when an item of
the matched rule's group matches both the requested type and the requested
value exactly; when no such item exists, it returns the payload with error
"Group item not found" and issues no delete call, leaving the group's item
list unchanged. -/
theorem removeFromGroup_exact_match (matchedRule : Option Rule)
    (uid type value : String) (hty : type = "from" ∨ type = "subject") :
    (∀ c ∈ (remove_from_group_execute matchedRule uid type value).2,
      ∃ item ∈ sessionGroupItems matchedRule,
        getGroupItemType type = some item.type ∧ item.value = value ∧
        c = StoreCall.deleteGroupItem item.id uid) ∧
    ((∀ item ∈ sessionGroupItems matchedRule,
        ¬(getGroupItemType type = some item.type ∧ item.value = value)) →
      remove_from_group_execute matchedRule uid type value =
        (ToolResult.error "Group item not found", [])) := by
  obtain ⟨git, hgit⟩ : ∃ git, getGroupItemType type = some git := by
    rcases hty with h | h
    · exact ⟨GroupItemType.FROM, by simp [getGroupItemType, h]⟩
    · exact ⟨GroupItemType.SUBJECT, by simp [getGroupItemType, h]⟩
  cases hitems : (matchedRule.bind Rule.group).bind Group.items with
  | none =>
    constructor
    · intro c hc
      simp [remove_from_group_execute, hgit, hitems] at hc
    · intro _
      simp [remove_from_group_execute, hgit, hitems]
  | some items =>
    have hsess : sessionGroupItems matchedRule = items := by
      simp [sessionGroupItems, hitems]
    cases hfind : items.find? (fun item =>
        decide (item.type = git) && decide (item.value = value)) with
    | none =>
      constructor
      · intro c hc
        simp [remove_from_group_execute, hgit, hitems, hfind] at hc
      · intro _
        simp [remove_from_group_execute, hgit, hitems, hfind]
    | some item =>
      have hmem : item ∈ items := List.mem_of_find?_eq_some hfind
      have hpred := List.find?_some hfind
      have htype : item.type = git := by
        have := Bool.and_elim_left hpred
        exact of_decide_eq_true this
      have hval : item.value = value := by
        have := Bool.and_elim_right hpred
        exact of_decide_eq_true this
      constructor
      · intro c hc
        simp [remove_from_group_execute, hgit, hitems, hfind] at hc
        exact ⟨item, hsess ▸ hmem, by rw [hgit, htype], hval, hc⟩
      · intro hnone
        exfalso
        exact hnone item (hsess ▸ hmem) ⟨by rw [hgit, htype], hval⟩

/-- Claim C5 witness: removing a value not present in the matched rule's
group returns the error and issues no delete call. -/
theorem removeFromGroup_exact_match_witness :
    remove_from_group_execute (some ruleB) "u1" "from" "missing@example.com" =
      (ToolResult.error "Group item not found", []) :=
  (removeFromGroup_exact_match (some ruleB) "u1" "from" "missing@example.com"
    (Or.inl rfl)).2 (by decide)

end FixRules

namespace FixRules

/- ----------------------------------------------------------------- -/
/- Claim C2 (corrected): the "No group items" marker.                -/
/- ----------------------------------------------------------------- -/

set_option maxRecDepth 16000

/-- Claim C2, counterexample: a rule whose group has a present but empty
item list (zero items) serializes without the "No group items" marker — the
empty array is truthy, so the join of zero items is emitted instead. -/
theorem ruleToXML_emptyGroupItems_counterexample :
    ruleEmptyItems.group = some groupEmptyItems ∧
    groupEmptyItems.items = some [] ∧
    strContains (ruleToXML ruleEmptyItems) "No group items" = false := by
  refine ⟨rfl, rfl, ?_⟩
  decide

/-- Claim C2 (amended): the serializer emits the group condition with the
group's name and the marker "No group items" in place of the item list
exactly when the group's item list is absent (null); a group with a present
but empty item list instead yields an empty items body, with no marker. -/
theorem ruleToXML_noGroupItems_marker (r : Rule) (g : Group) (hg : r.group = some g) :
    (g.items = none →
      strContains (ruleToXML r) "No group items" = true ∧
      strContains (ruleToXML r) g.name = true) ∧
    (g.items = some [] → groupItemsBody g = "") := by
  constructor
  · intro hitems
    have hgs : groupSection r =
        "<group_condition>\n      <group>" ++ g.name ++
          "</group>\n      <group_items>\n        " ++ "No group items" ++
          "\n      </group_items>\n    </group_condition>" := by
      simp [groupSection, hg, groupItemsBody, hitems]
    constructor
    · refine strContains_of_parts _
        ("<rule>\n  <rule_name>" ++ r.name ++
          "</rule_name>\n  <conditions>\n    <conditional_operator>" ++
          r.conditionalOperator.toStr ++ "</conditional_operator>\n    " ++
          (if jsTruthy r.instructions then
            "<ai_instructions>" ++ r.instructions.getD "" ++ "</ai_instructions>"
          else "") ++ "\n    " ++ staticSection r ++ "\n    " ++
          "<group_condition>\n      <group>" ++ g.name ++
          "</group>\n      <group_items>\n        ")
        "No group items"
        ("\n      </group_items>\n    </group_condition>" ++ "\n    " ++
          categorySection r ++ "\n  </conditions>\n</rule>") ?_
      simp [ruleToXML, hgs, data_append, List.append_assoc]
    · refine strContains_of_parts _
        ("<rule>\n  <rule_name>" ++ r.name ++
          "</rule_name>\n  <conditions>\n    <conditional_operator>" ++
          r.conditionalOperator.toStr ++ "</conditional_operator>\n    " ++
          (if jsTruthy r.instructions then
            "<ai_instructions>" ++ r.instructions.getD "" ++ "</ai_instructions>"
          else "") ++ "\n    " ++ staticSection r ++ "\n    " ++
          "<group_condition>\n      <group>")
        g.name
        ("</group>\n      <group_items>\n        " ++ "No group items" ++
          "\n      </group_items>\n    </group_condition>" ++ "\n    " ++
          categorySection r ++ "\n  </conditions>\n</rule>") ?_
      simp [ruleToXML, hgs, data_append, List.append_assoc]
  · intro hitems
    simp [groupItemsBody, hitems, String.intercalate]

/-- Claim C2 witness: the amended theorem applied at a concrete rule whose
group's item list is absent. -/
theorem ruleToXML_noGroupItems_marker_witness :
    strContains (ruleToXML ruleNoItemsList) "No group items" = true :=
  ((ruleToXML_noGroupItems_marker ruleNoItemsList groupNoItemsList rfl).1 rfl).1

end FixRules

namespace FixRules

/- ----------------------------------------------------------------- -/
/- Claim C3 (confirmed): the static-AND single-block invariant.      -/
/- ----------------------------------------------------------------- -/

/-- Claim C3: for every rule with at least two of from/to/subject/body set,
the serializer emits all set fields inside one single static-conditions
block, which sits between the rest of the output and does not depend on the
top-level conditional operator (so it is never split by it); each absent
field contributes nothing to the block; and the block is omitted entirely
when no static field is set. -/
theorem staticConditions_single_block (r : Rule) :
    (2 ≤ staticSetCount r →
      ruleToXML r =
        ("<rule>\n  <rule_name>" ++ r.name ++
          "</rule_name>\n  <conditions>\n    <conditional_operator>" ++
          r.conditionalOperator.toStr ++ "</conditional_operator>\n    " ++
          (if jsTruthy r.instructions then
            "<ai_instructions>" ++ r.instructions.getD "" ++ "</ai_instructions>"
          else "") ++ "\n    ") ++
        staticSection r ++
        ("\n    " ++ groupSection r ++ "\n    " ++ categorySection r ++
          "\n  </conditions>\n</rule>") ∧
      staticSection r =
        "<static_conditions>\n      " ++ fromXML r ++ "\n      " ++ toXML r ++
          "\n      " ++ subjectXML r ++ "\n      " ++ bodyXML r ++
          "\n    </static_conditions>" ∧
      (∀ op, staticSection { r with conditionalOperator := op } = staticSection r) ∧
      (jsTruthy r.from_ = true →
        fromXML r = "<from>" ++ r.from_.getD "" ++ "</from>" ∧
        strContains (staticSection r) (fromXML r) = true) ∧
      (jsTruthy r.to_ = true →
        toXML r = "<to>" ++ r.to_.getD "" ++ "</to>" ∧
        strContains (staticSection r) (toXML r) = true) ∧
      (jsTruthy r.subject = true →
        subjectXML r = "<subject>" ++ r.subject.getD "" ++ "</subject>" ∧
        strContains (staticSection r) (subjectXML r) = true) ∧
      (jsTruthy r.body = true →
        bodyXML r = "<body>" ++ r.body.getD "" ++ "</body>" ∧
        strContains (staticSection r) (bodyXML r) = true) ∧
      (jsTruthy r.from_ = false → fromXML r = "") ∧
      (jsTruthy r.to_ = false → toXML r = "") ∧
      (jsTruthy r.subject = false → subjectXML r = "") ∧
      (jsTruthy r.body = false → bodyXML r = "")) ∧
    (staticSetCount r = 0 → staticSection r = "") := by
  constructor
  · intro hcount
    have hstat : hasStaticConditions r = true := hasStatic_of_count_pos r (by omega)
    have hsec : staticSection r =
        "<static_conditions>\n      " ++ fromXML r ++ "\n      " ++ toXML r ++
          "\n      " ++ subjectXML r ++ "\n      " ++ bodyXML r ++
          "\n    </static_conditions>" := by
      simp [staticSection, hstat]
    refine ⟨?_, hsec, ?_, ?_, ?_, ?_, ?_, ?_, ?_, ?_, ?_⟩
    · simp [ruleToXML, str_append_assoc]
    · intro op
      rfl
    · intro hf
      refine ⟨by simp [fromXML, hf], ?_⟩
      refine strContains_of_parts _ "<static_conditions>\n      " (fromXML r)
        ("\n      " ++ toXML r ++ "\n      " ++ subjectXML r ++ "\n      " ++
          bodyXML r ++ "\n    </static_conditions>") ?_
      rw [hsec]
      simp [data_append, List.append_assoc]
    · intro ht
      refine ⟨by simp [toXML, ht], ?_⟩
      refine strContains_of_parts _
        ("<static_conditions>\n      " ++ fromXML r ++ "\n      ") (toXML r)
        ("\n      " ++ subjectXML r ++ "\n      " ++ bodyXML r ++
          "\n    </static_conditions>") ?_
      rw [hsec]
      simp [data_append, List.append_assoc]
    · intro hs
      refine ⟨by simp [subjectXML, hs], ?_⟩
      refine strContains_of_parts _
        ("<static_conditions>\n      " ++ fromXML r ++ "\n      " ++ toXML r ++
          "\n      ") (subjectXML r)
        ("\n      " ++ bodyXML r ++ "\n    </static_conditions>") ?_
      rw [hsec]
      simp [data_append, List.append_assoc]
    · intro hb
      refine ⟨by simp [bodyXML, hb], ?_⟩
      refine strContains_of_parts _
        ("<static_conditions>\n      " ++ fromXML r ++ "\n      " ++ toXML r ++
          "\n      " ++ subjectXML r ++ "\n      ") (bodyXML r)
        ("\n    </static_conditions>") ?_
      rw [hsec]
      simp [data_append, List.append_assoc]
    · intro hf
      simp [fromXML, hf]
    · intro ht
      simp [toXML, ht]
    · intro hs
      simp [subjectXML, hs]
    · intro hb
      simp [bodyXML, hb]
  · intro h0
    simp [staticSection, hasStatic_of_count_zero r h0]

/-- Claim C3 witness: the theorem applied at a concrete rule with two static
fields set (from and subject); its set fields are contained in the block and
its absent body field contributes nothing. -/
theorem staticConditions_single_block_witness :
    strContains (staticSection ruleTwoStatics) (fromXML ruleTwoStatics) = true ∧
    strContains (staticSection ruleTwoStatics) (subjectXML ruleTwoStatics) = true ∧
    bodyXML ruleTwoStatics = "" :=
  ⟨(((staticConditions_single_block ruleTwoStatics).1 (by decide)).2.2.2.1 (by decide)).2,
   (((staticConditions_single_block ruleTwoStatics).1 (by decide)).2.2.2.2.2.1 (by decide)).2,
   ((staticConditions_single_block ruleTwoStatics).1 (by decide)).2.2.2.2.2.2.2.2.2.2 (by decide)⟩

/- ----------------------------------------------------------------- -/
/- Claim C9 (confirmed): empty-string static fields act as absent.   -/
/- ----------------------------------------------------------------- -/

/-- Claim C9: the serializer treats an empty-string value of any static
condition field the same as an absent field: for every rule whose present
static fields are all empty strings no static-conditions block is emitted at
all, and an empty-string field is never emitted inside the block. -/
theorem staticConditions_empty_string_absent (r : Rule) :
    ((r.from_ = none ∨ r.from_ = some "") →
     (r.to_ = none ∨ r.to_ = some "") →
     (r.subject = none ∨ r.subject = some "") →
     (r.body = none ∨ r.body = some "") →
      hasStaticConditions r = false ∧ staticSection r = "") ∧
    (r.from_ = some "" → fromXML r = "") ∧
    (r.to_ = some "" → toXML r = "") ∧
    (r.subject = some "" → subjectXML r = "") ∧
    (r.body = some "" → bodyXML r = "") := by
  constructor
  · intro hf ht hs hb
    have hstat : hasStaticConditions r = false := by
      unfold hasStaticConditions
      rcases hf with hf | hf <;> rcases ht with ht | ht <;>
        rcases hs with hs | hs <;> rcases hb with hb | hb <;>
        simp [hf, ht, hs, hb, jsTruthy]
    exact ⟨hstat, by simp [staticSection, hstat]⟩
  · refine ⟨?_, ?_, ?_, ?_⟩ <;> intro h <;>
      simp [fromXML, toXML, subjectXML, bodyXML, h, jsTruthy]

/-- Claim C9 witness: a concrete rule whose present static fields are all
empty strings emits no static-conditions block. -/
theorem staticConditions_empty_string_absent_witness :
    hasStaticConditions ruleEmptyStrings = false ∧
    staticSection ruleEmptyStrings = "" :=
  (staticConditions_empty_string_absent ruleEmptyStrings).1
    (Or.inr rfl) (Or.inl rfl) (Or.inr rfl) (Or.inl rfl)

end FixRules

namespace FixRules

/- ----------------------------------------------------------------- -/
/- Claims C6 and C7: the step-bounded loop and the terminal tool.    -/
/- ----------------------------------------------------------------- -/

theorem runSession_never_reply (decide : List String → AgentAction)
    (h : ∀ log c, decide log ≠ AgentAction.reply c) :
    ∀ (n : Nat) (log : List String),
      (runSession decide n log).toolCallLog.length = n + log.length ∧
      (runSession decide n log).terminalReply = none := by
  intro n
  induction n with
  | zero =>
    intro log
    simp [runSession]
  | succ m ih =>
    intro log
    cases hd : decide log with
    | reply c => exact absurd hd (h log c)
    | callTool t =>
      have := ih (t :: log)
      constructor
      · rw [show runSession decide (m + 1) log = runSession decide m (t :: log) by
          simp [runSession, hd]]
        rw [this.1]
        simp
        omega
      · rw [show runSession decide (m + 1) log = runSession decide m (t :: log) by
          simp [runSession, hd]]
        exact this.2

/-- Claim C6: once the terminal reply tool is chosen, the session ends with
the log accumulated so far — no further tool executes even with remaining
step budget, and the reply performs no mutation; moreover the reply entry of
every session's tool registry is the one without an execute step. -/
theorem reply_terminates_session :
    (∀ (decide : List String → AgentAction) (n : Nat) (log : List String) (c : String),
      decide log = AgentAction.reply c →
      runSession decide (n + 1) log = ⟨log.reverse, some c⟩) ∧
    (∀ (categories : Option (List String)) (matchedRule : Option Rule) (t : ToolSpec),
      t ∈ toolRegistry categories matchedRule →
      (t.name = ToolName.reply ↔ t.hasExecute = false)) := by
  constructor
  · intro decide n log c hd
    simp [runSession, hd]
  · intro categories matchedRule t ht
    unfold toolRegistry at ht
    rcases categories with _ | cs <;>
      rcases hmg : (matchedRule.bind Rule.group).isSome <;>
      rw [hmg] at ht <;> fin_cases ht <;> simp

/-- Claim C6 witness: choosing reply with four budget steps remaining ends
the session at once, keeping only the previously accumulated call. -/
theorem reply_terminates_session_witness :
    runSession (fun _ => AgentAction.reply "done") (4 + 1) ["edit_rule"] =
      ⟨["edit_rule"].reverse, some "done"⟩ :=
  reply_terminates_session.1 (fun _ => AgentAction.reply "done") 4 ["edit_rule"] "done" rfl

/-- Claim C7: for a decision-maker that never selects the terminal reply
tool, the session executes exactly the configured maximum number of tool
calls — the step budget, set to 5 — and then stops without a terminal
reply, returning the accumulated tool-call log. -/
theorem session_step_budget (decide : List String → AgentAction)
    (h : ∀ log c, decide log ≠ AgentAction.reply c) :
    maxSteps = 5 ∧
    (runSession decide maxSteps []).toolCallLog.length = maxSteps ∧
    (runSession decide maxSteps []).terminalReply = none := by
  have := runSession_never_reply decide h maxSteps []
  exact ⟨rfl, by simpa using this.1, this.2⟩

/-- Claim C7 witness: a decision-maker that always calls edit_rule runs for
exactly the five budgeted steps and ends with no terminal reply. -/
theorem session_step_budget_witness :
    (runSession (fun _ => AgentAction.callTool "edit_rule") maxSteps []).toolCallLog.length =
      maxSteps ∧
    (runSession (fun _ => AgentAction.callTool "edit_rule") maxSteps []).terminalReply = none :=
  (session_step_budget (fun _ => AgentAction.callTool "edit_rule")
    (fun _ _ h => AgentAction.noConfusion h)).2

/- ----------------------------------------------------------------- -/
/- Claim C8 (confirmed): registry membership.                        -/
/- ----------------------------------------------------------------- -/

/-- Claim C8: the per-session tool registry contains change_sender_category
exactly when the session has a non-null category list, contains
remove_from_group exactly when the session's matched rule is non-null and
has a group, and always contains edit_rule, create_rule, add_to_group and
the terminal reply tool. -/
theorem toolRegistry_membership (categories : Option (List String))
    (matchedRule : Option Rule) :
    (ToolName.change_sender_category ∈ (toolRegistry categories matchedRule).map ToolSpec.name
      ↔ categories.isSome = true) ∧
    (ToolName.remove_from_group ∈ (toolRegistry categories matchedRule).map ToolSpec.name
      ↔ ∃ r g, matchedRule = some r ∧ r.group = some g) ∧
    ToolName.edit_rule ∈ (toolRegistry categories matchedRule).map ToolSpec.name ∧
    ToolName.create_rule ∈ (toolRegistry categories matchedRule).map ToolSpec.name ∧
    ToolName.add_to_group ∈ (toolRegistry categories matchedRule).map ToolSpec.name ∧
    ToolName.reply ∈ (toolRegistry categories matchedRule).map ToolSpec.name := by
  rcases matchedRule with _ | r
  · rcases categories with _ | cs <;> simp [toolRegistry]
  · rcases hg : r.group with _ | g <;> rcases categories with _ | cs <;>
      simp [toolRegistry, hg]

/-- Claim C8 witness: the registry theorem applied at a concrete session
with no categories and no matched rule. -/
theorem toolRegistry_membership_witness :
    ToolName.edit_rule ∈ (toolRegistry none none).map ToolSpec.name ∧
    ToolName.reply ∈ (toolRegistry none none).map ToolSpec.name :=
  ⟨(toolRegistry_membership none none).2.2.1,
   (toolRegistry_membership none none).2.2.2.2.2⟩

end FixRules
